import Mathlib

/-!
Verification of the transportation-problem logic of `logistics.py`.

The program reads a supply vector of length `m`, a demand vector of length
`n` and an `m × n` cost matrix, checks the supply/demand balance, builds a
linear program for the Gurobi solver (one variable `x[i,j] >= 0` with
objective coefficient `cost[i][j]` per pair, one `<=` capacity constraint
per source, one `>=` coverage constraint per destination, minimization
sense), and renders the solver's answer as a flow matrix with row and
column aggregates.  Numbers entered in the UI are modelled as rationals.
-/

namespace Logistics

/-- Direction of a linear constraint: `le` for `lhs <= rhs` (the supply
constraints built with `<=`), `ge` for `lhs >= rhs` (the demand
constraints built with `>=`). -/
inductive Rel where
  | le
  | ge
deriving DecidableEq, Repr

/-- One decision variable as registered with the solver by
`model.addVar(lb=0, obj=costs[i][j], name=f"x_{i+1}_{j+1}")`:
its grid position, lower bound, objective coefficient and name. -/
structure VarInfo (m n : ℕ) where
  row : Fin m
  col : Fin n
  lb : ℚ
  obj : ℚ
  vname : String
deriving DecidableEq, Repr

/-- One linear constraint over the `m × n` variable grid: the coefficient of
`x[i,j]` in the left-hand side, the direction and the right-hand side. -/
structure LinConstr (m n : ℕ) where
  coeff : Fin m → Fin n → ℚ
  rel : Rel
  rhs : ℚ
  cname : String

/-- Objective sense of the model (`model.modelSense = GRB.MINIMIZE`). -/
inductive Sense where
  | minimize
  | maximize
deriving DecidableEq, Repr

/-- The linear program handed to the solver: variable list, sense and
constraint list. -/
structure LPModel (m n : ℕ) where
  vars : List (VarInfo m n)
  sense : Sense
  constrs : List (LinConstr m n)

/-- Capacity constraint of source `i`:
`model.addConstr(sum(x[i, j] for j in range(n)) <= supply[i], f"supply_{i}")`.
The left-hand side `sum_j x[i,j]` is represented by the coefficient grid
that is `1` exactly on row `i`. -/
def supplyConstr (m n : ℕ) (supply : Fin m → ℚ) (i : Fin m) : LinConstr m n :=
  { coeff := fun r _ => if r = i then 1 else 0
    rel := Rel.le
    rhs := supply i
    cname := "supply_" ++ toString i.val }

/-- Coverage constraint of destination `j`:
`model.addConstr(sum(x[i, j] for i in range(m)) >= demand[j], f"demand_{j}")`. -/
def demandConstr (m n : ℕ) (demand : Fin n → ℚ) (j : Fin n) : LinConstr m n :=
  { coeff := fun _ c => if c = j then 1 else 0
    rel := Rel.ge
    rhs := demand j
    cname := "demand_" ++ toString j.val }

/-- The model builder of `solve_transport` (lines 496-512): the nested
loops `for i in range(m): for j in range(n): x[i, j] = model.addVar(...)`,
the sense assignment, and the two constraint loops. -/
def buildModel (m n : ℕ) (supply : Fin m → ℚ) (demand : Fin n → ℚ)
    (costs : Fin m → Fin n → ℚ) : LPModel m n :=
  { vars := (List.finRange m).flatMap fun i =>
      (List.finRange n).map fun j =>
        { row := i
          col := j
          lb := 0
          obj := costs i j
          vname := "x_" ++ toString (i.val + 1) ++ "_" ++ toString (j.val + 1) }
    sense := Sense.minimize
    constrs :=
      ((List.finRange m).map fun i => supplyConstr m n supply i) ++
      ((List.finRange n).map fun j => demandConstr m n demand j) }

/-- Value of a constraint's left-hand side at an assignment `x`. -/
def constrLHS {m n : ℕ} (c : LinConstr m n) (x : Fin m → Fin n → ℚ) : ℚ :=
  ∑ i, ∑ j, c.coeff i j * x i j

/-- An assignment satisfies a constraint. -/
def satConstr {m n : ℕ} (c : LinConstr m n) (x : Fin m → Fin n → ℚ) : Prop :=
  match c.rel with
  | Rel.le => constrLHS c x ≤ c.rhs
  | Rel.ge => c.rhs ≤ constrLHS c x

instance {m n : ℕ} (c : LinConstr m n) (x : Fin m → Fin n → ℚ) :
    Decidable (satConstr c x) := by
  unfold satConstr
  cases c.rel <;> infer_instance

/-- Feasibility for the model: every variable respects its lower bound
and every constraint holds. -/
def feasible {m n : ℕ} (lp : LPModel m n) (x : Fin m → Fin n → ℚ) : Prop :=
  (∀ v ∈ lp.vars, v.lb ≤ x v.row v.col) ∧ (∀ c ∈ lp.constrs, satConstr c x)

instance {m n : ℕ} (lp : LPModel m n) (x : Fin m → Fin n → ℚ) :
    Decidable (feasible lp x) := by
  unfold feasible
  infer_instance

/-- Objective value of an assignment: the sum, over the registered
variables, of objective coefficient times variable value. -/
def objectiveVal {m n : ℕ} (lp : LPModel m n) (x : Fin m → Fin n → ℚ) : ℚ :=
  (lp.vars.map fun v => v.obj * x v.row v.col).sum

/-- The rendered result table (lines 543-598): the flow matrix, the
"Offre" column of row flow totals, the "Coût usine" column of row costs,
the "Demande" row of column flow totals, and the "Coût total" cell. -/
structure ResultTable (m n : ℕ) where
  flow : Fin m → Fin n → ℚ
  rowFlow : Fin m → ℚ
  rowCost : Fin m → ℚ
  colFlow : Fin n → ℚ
  grandTotal : ℚ

/-- The result formatter: `row_flow` and `row_cost` accumulate
`val = x[i, j].x` and `costs[i][j] * val` over `j`; `col_flow` sums
`x[i, j].x` over `i`; the grand-total cell displays
`total_cost = model.objVal`. -/
def formatResult (m n : ℕ) (x : Fin m → Fin n → ℚ) (costs : Fin m → Fin n → ℚ)
    (objVal : ℚ) : ResultTable m n :=
  { flow := x
    rowFlow := fun i => ∑ j, x i j
    rowCost := fun i => ∑ j, costs i j * x i j
    colFlow := fun j => ∑ i, x i j
    grandTotal := objVal }

/-- Content of the solution-information pane (lines 520-530): total cost
`model.objVal`, the displayed variable count `m * n` and constraint count
`m + n`. -/
structure SolutionPane where
  totalCost : ℚ
  numVarsShown : ℕ
  numConstrsShown : ℕ

/-- Content of the statistics tab (`update_stats`): dimensions, variable
count and optimal cost. -/
structure StatsPane where
  numSources : ℕ
  numDests : ℕ
  totalVarsShown : ℕ
  optimalCost : ℚ

/-- The result-bearing display state of the application: solution pane,
results table, statistics tab, export-button flag and status bar. -/
structure DisplayState where
  solutionPane : Option SolutionPane
  results : Option ((m : ℕ) × (n : ℕ) × ResultTable m n)
  stats : Option StatsPane
  exportEnabled : Bool
  statusText : String

/-- Display state after `initUI`: nothing rendered, export disabled,
status bar "Prêt". -/
def initialState : DisplayState :=
  { solutionPane := none
    results := none
    stats := none
    exportEnabled := false
    statusText := "Pret" }

/-- `GRB.OPTIMAL` status code. -/
def GRB_OPTIMAL : ℕ := 2

/-- What the solver hands back after `model.optimize()`: a status code,
the variable values and the objective value (the latter two are read only
when the status is `GRB.OPTIMAL`). -/
structure GurobiResult (m n : ℕ) where
  status : ℕ
  xVal : Fin m → Fin n → ℚ
  objVal : ℚ

/-- The balance tolerance of line 482: `abs(total_supply - total_demand) > 0.001`. -/
def epsilon : ℚ := 1 / 1000

/-- Warning text of the non-optimal branch (lines 611-613), carrying the
raw solver status code. -/
def nonOptimalMessage (status : ℕ) : String :=
  "Statut: " ++ toString status ++ "\nAucune solution optimale trouvee."

/-- Everything observable about one run of `solve_transport`: the display
state afterwards, whether the imbalance confirmation prompt was shown,
the model handed to the solver (`none` when no model was built and the
solver was never called), and the warning dialog shown on failure. -/
structure SolveOutcome where
  state : DisplayState
  promptShown : Bool
  sentModel : Option ((m : ℕ) × (n : ℕ) × LPModel m n)
  dialog : Option String

/-- The `solve_transport` driver (lines 468-619).  It totals supply and
demand; when they differ by more than `epsilon` it shows the confirmation
prompt and, if the user declines, returns at once.  Otherwise it builds
the model FROM THE ORIGINAL DATA (the source adds no dummy row or column)
and calls the solver; on `GRB.OPTIMAL` it renders the formatted result,
fills the panes and enables export, otherwise it shows a warning with the
raw status and sets only the status bar. -/
def solveTransport (m n : ℕ) (supply : Fin m → ℚ) (demand : Fin n → ℚ)
    (costs : Fin m → Fin n → ℚ) (userConfirms : Bool)
    (solver : LPModel m n → GurobiResult m n) (st : DisplayState) : SolveOutcome :=
  let totalSupply : ℚ := ∑ i, supply i
  let totalDemand : ℚ := ∑ j, demand j
  let imbalanced : Bool := decide (epsilon < |totalSupply - totalDemand|)
  let proceed : SolveOutcome :=
    let lp := buildModel m n supply demand costs
    let res := solver lp
    if res.status = GRB_OPTIMAL then
      { state :=
          { solutionPane := some ⟨res.objVal, m * n, m + n⟩
            results := some ⟨m, n, formatResult m n res.xVal costs res.objVal⟩
            stats := some ⟨m, n, m * n, res.objVal⟩
            exportEnabled := true
            statusText := "Solution optimale trouvee" }
        promptShown := imbalanced
        sentModel := some ⟨m, n, lp⟩
        dialog := none }
    else
      { state := { st with statusText := "Aucune solution optimale trouvee" }
        promptShown := imbalanced
        sentModel := some ⟨m, n, lp⟩
        dialog := some (nonOptimalMessage res.status) }
  if imbalanced && !userConfirms then
    { state := st
      promptShown := imbalanced
      sentModel := none
      dialog := none }
  else
    proceed

/-- Total of the `<=` (supply) right-hand sides of a model. -/
def leRhsTotal {m n : ℕ} (lp : LPModel m n) : ℚ :=
  ((lp.constrs.filter fun c => c.rel == Rel.le).map LinConstr.rhs).sum

/-- Total of the `>=` (demand) right-hand sides of a model. -/
def geRhsTotal {m n : ℕ} (lp : LPModel m n) : ℚ :=
  ((lp.constrs.filter fun c => c.rel == Rel.ge).map LinConstr.rhs).sum

section Lemmas

variable {m n : ℕ}

lemma constrLHS_supplyConstr (supply : Fin m → ℚ) (i : Fin m)
    (x : Fin m → Fin n → ℚ) :
    constrLHS (supplyConstr m n supply i) x = ∑ j, x i j := by
  simp [constrLHS, supplyConstr, ite_mul, Finset.sum_ite_eq]

lemma constrLHS_demandConstr (demand : Fin n → ℚ) (j : Fin n)
    (x : Fin m → Fin n → ℚ) :
    constrLHS (demandConstr m n demand j) x = ∑ i, x i j := by
  simp [constrLHS, demandConstr, ite_mul, Finset.sum_ite_eq]

lemma satConstr_supplyConstr (supply : Fin m → ℚ) (i : Fin m)
    (x : Fin m → Fin n → ℚ) :
    satConstr (supplyConstr m n supply i) x ↔ ∑ j, x i j ≤ supply i := by
  show constrLHS (supplyConstr m n supply i) x ≤ supply i ↔ _
  rw [constrLHS_supplyConstr]

lemma satConstr_demandConstr (demand : Fin n → ℚ) (j : Fin n)
    (x : Fin m → Fin n → ℚ) :
    satConstr (demandConstr m n demand j) x ↔ demand j ≤ ∑ i, x i j := by
  show demand j ≤ constrLHS (demandConstr m n demand j) x ↔ _
  rw [constrLHS_demandConstr]

/-- Characterization of membership in the built constraint list. -/
lemma mem_buildModel_constrs (supply : Fin m → ℚ) (demand : Fin n → ℚ)
    (costs : Fin m → Fin n → ℚ) (c : LinConstr m n) :
    c ∈ (buildModel m n supply demand costs).constrs ↔
      (∃ i, c = supplyConstr m n supply i) ∨ (∃ j, c = demandConstr m n demand j) := by
  simp only [buildModel, List.mem_append, List.mem_map]
  constructor
  · rintro (⟨i, _, rfl⟩ | ⟨j, _, rfl⟩)
    · exact Or.inl ⟨i, rfl⟩
    · exact Or.inr ⟨j, rfl⟩
  · rintro (⟨i, rfl⟩ | ⟨j, rfl⟩)
    · exact Or.inl ⟨i, List.mem_finRange i, rfl⟩
    · exact Or.inr ⟨j, List.mem_finRange j, rfl⟩

/-- Satisfying every built constraint is exactly the capacity and
coverage inequalities of the transportation problem. -/
lemma constrs_sat_iff (supply : Fin m → ℚ) (demand : Fin n → ℚ)
    (costs : Fin m → Fin n → ℚ) (x : Fin m → Fin n → ℚ) :
    (∀ c ∈ (buildModel m n supply demand costs).constrs, satConstr c x) ↔
      ((∀ i, ∑ j, x i j ≤ supply i) ∧ (∀ j, demand j ≤ ∑ i, x i j)) := by
  constructor
  · intro h
    refine ⟨fun i => ?_, fun j => ?_⟩
    · have := h (supplyConstr m n supply i)
        ((mem_buildModel_constrs supply demand costs _).mpr (Or.inl ⟨i, rfl⟩))
      exact (satConstr_supplyConstr supply i x).mp this
    · have := h (demandConstr m n demand j)
        ((mem_buildModel_constrs supply demand costs _).mpr (Or.inr ⟨j, rfl⟩))
      exact (satConstr_demandConstr demand j x).mp this
  · rintro ⟨hrow, hcol⟩ c hc
    rcases (mem_buildModel_constrs supply demand costs c).mp hc with ⟨i, rfl⟩ | ⟨j, rfl⟩
    · exact (satConstr_supplyConstr supply i x).mpr (hrow i)
    · exact (satConstr_demandConstr demand j x).mpr (hcol j)

/-- The variable registered for the pair `(i, j)` is in the built list. -/
lemma buildModel_vars_mem (supply : Fin m → ℚ) (demand : Fin n → ℚ)
    (costs : Fin m → Fin n → ℚ) (i : Fin m) (j : Fin n) :
    ({ row := i, col := j, lb := 0, obj := costs i j
       vname := "x_" ++ toString (i.val + 1) ++ "_" ++ toString (j.val + 1) } :
        VarInfo m n) ∈ (buildModel m n supply demand costs).vars := by
  simp only [buildModel, List.mem_flatMap, List.mem_map]
  exact ⟨i, List.mem_finRange i, j, List.mem_finRange j, rfl⟩

/-- Every registered variable has lower bound `0` and objective
coefficient `costs[row][col]`. -/
lemma buildModel_vars_fields (supply : Fin m → ℚ) (demand : Fin n → ℚ)
    (costs : Fin m → Fin n → ℚ) {v : VarInfo m n}
    (hv : v ∈ (buildModel m n supply demand costs).vars) :
    v.lb = 0 ∧ v.obj = costs v.row v.col := by
  simp only [buildModel, List.mem_flatMap, List.mem_map] at hv
  obtain ⟨i, -, j, -, rfl⟩ := hv
  exact ⟨rfl, rfl⟩

/-- Every registered variable has lower bound `0`, so the lower-bound part
of feasibility is nonnegativity of the used entries. -/
lemma buildModel_lb_iff (supply : Fin m → ℚ) (demand : Fin n → ℚ)
    (costs : Fin m → Fin n → ℚ) (x : Fin m → Fin n → ℚ) :
    (∀ v ∈ (buildModel m n supply demand costs).vars, v.lb ≤ x v.row v.col) ↔
      ∀ i j, (0 : ℚ) ≤ x i j := by
  constructor
  · intro h i j
    exact h _ (buildModel_vars_mem supply demand costs i j)
  · intro h v hv
    rw [(buildModel_vars_fields supply demand costs hv).1]
    exact h v.row v.col

/-- Feasibility for the built model, written with the transportation
inequalities. -/
lemma feasible_buildModel_iff (supply : Fin m → ℚ) (demand : Fin n → ℚ)
    (costs : Fin m → Fin n → ℚ) (x : Fin m → Fin n → ℚ) :
    feasible (buildModel m n supply demand costs) x ↔
      ((∀ i j, (0 : ℚ) ≤ x i j) ∧ (∀ i, ∑ j, x i j ≤ supply i) ∧
        (∀ j, demand j ≤ ∑ i, x i j)) := by
  unfold feasible
  rw [buildModel_lb_iff supply demand costs x, constrs_sat_iff supply demand costs x]

lemma sum_map_flatMap {α β : Type} (l : List α) (F : α → List β) (g : β → ℚ) :
    (((l.flatMap F).map g).sum : ℚ) = (l.map fun a => ((F a).map g).sum).sum := by
  induction l with
  | nil => simp
  | cons a t ih => simp [List.flatMap_cons, ih]

/-- The objective of the built model is the transportation cost
`sum_{i,j} cost[i][j] * x[i][j]`. -/
lemma objectiveVal_buildModel (supply : Fin m → ℚ) (demand : Fin n → ℚ)
    (costs : Fin m → Fin n → ℚ) (x : Fin m → Fin n → ℚ) :
    objectiveVal (buildModel m n supply demand costs) x =
      ∑ i, ∑ j, costs i j * x i j := by
  unfold objectiveVal buildModel
  rw [sum_map_flatMap]
  simp only [List.map_map]
  rw [Fin.sum_univ_def]
  refine congrArg List.sum (List.map_congr_left fun i _ => ?_)
  rw [Fin.sum_univ_def]
  exact congrArg List.sum (List.map_congr_left fun j _ => rfl)

lemma sum_map_const_nat {α : Type} (l : List α) (k : ℕ) :
    (l.map fun _ => k).sum = l.length * k := by
  induction l with
  | nil => simp
  | cons a t ih => simp [List.sum_cons, ih, Nat.succ_mul, Nat.add_comm]

lemma buildModel_vars_length (supply : Fin m → ℚ) (demand : Fin n → ℚ)
    (costs : Fin m → Fin n → ℚ) :
    (buildModel m n supply demand costs).vars.length = m * n := by
  show ((List.finRange m).flatMap _).length = m * n
  rw [List.length_flatMap]
  simp only [Function.comp_def, List.length_map, List.length_finRange]
  rw [sum_map_const_nat, List.length_finRange]

lemma buildModel_constrs_length (supply : Fin m → ℚ) (demand : Fin n → ℚ)
    (costs : Fin m → Fin n → ℚ) :
    (buildModel m n supply demand costs).constrs.length = m + n := by
  simp [buildModel]

/-- On a balanced instance every feasible assignment saturates all
capacity and coverage constraints: row sums equal the supplies and column
sums equal the demands. -/
lemma balanced_feasible_tight (supply : Fin m → ℚ) (demand : Fin n → ℚ)
    (costs : Fin m → Fin n → ℚ) (x : Fin m → Fin n → ℚ)
    (hfeas : feasible (buildModel m n supply demand costs) x)
    (hbal : ∑ i, supply i = ∑ j, demand j) :
    (∀ i, ∑ j, x i j = supply i) ∧ (∀ j, ∑ i, x i j = demand j) := by
  obtain ⟨-, hrow, hcol⟩ := (feasible_buildModel_iff supply demand costs x).mp hfeas
  have hcomm : ∑ i, ∑ j, x i j = ∑ j, ∑ i, x i j := Finset.sum_comm
  have hT1 : ∑ i, ∑ j, x i j ≤ ∑ i, supply i :=
    Finset.sum_le_sum fun i _ => hrow i
  have hT2 : ∑ j, demand j ≤ ∑ j, ∑ i, x i j :=
    Finset.sum_le_sum fun j _ => hcol j
  have h1 : ∑ i, ∑ j, x i j = ∑ i, supply i :=
    le_antisymm hT1 (by rw [hbal, hcomm]; exact hT2)
  have h2 : ∑ j, demand j = ∑ j, ∑ i, x i j := by
    rw [← hcomm, h1, hbal]
  have hrowEq := (Finset.sum_eq_sum_iff_of_le (s := Finset.univ)
    (f := fun i => ∑ j, x i j) (g := supply) fun i _ => hrow i).mp h1
  have hcolEq := (Finset.sum_eq_sum_iff_of_le (s := Finset.univ)
    (f := demand) (g := fun j => ∑ i, x i j) fun j _ => hcol j).mp h2
  exact ⟨fun i => hrowEq i (Finset.mem_univ i),
    fun j => (hcolEq j (Finset.mem_univ j)).symm⟩

end Lemmas

section Claims

variable {m n : ℕ}

/-- C2: for every supply vector, demand vector and cost matrix, the model
builder produces a minimization program with, for every pair `(i, j)`, a
variable of lower bound `0` and objective coefficient `cost[i][j]`; its
objective is `sum_{i,j} cost[i][j] * x[i,j]`, and its constraints hold at
`x` exactly when every source `i` satisfies `sum_j x[i,j] <= supply[i]`
and every destination `j` satisfies `sum_i x[i,j] >= demand[j]`. -/
theorem claim_C2_model_builder (m n : ℕ) (supply : Fin m → ℚ) (demand : Fin n → ℚ)
    (costs : Fin m → Fin n → ℚ) :
    (buildModel m n supply demand costs).sense = Sense.minimize ∧
    (∀ i j, ∃ v ∈ (buildModel m n supply demand costs).vars,
      v.row = i ∧ v.col = j ∧ v.lb = 0 ∧ v.obj = costs i j) ∧
    (∀ x, objectiveVal (buildModel m n supply demand costs) x =
      ∑ i, ∑ j, costs i j * x i j) ∧
    (∀ x, (∀ c ∈ (buildModel m n supply demand costs).constrs, satConstr c x) ↔
      ((∀ i, ∑ j, x i j ≤ supply i) ∧ (∀ j, demand j ≤ ∑ i, x i j))) :=
  ⟨rfl,
    fun i j => ⟨_, buildModel_vars_mem supply demand costs i j, rfl, rfl, rfl, rfl⟩,
    fun x => objectiveVal_buildModel supply demand costs x,
    fun x => constrs_sat_iff supply demand costs x⟩

/-- C3: for every balanced instance with `m` sources and `n`
destinations, the linear program handed to the solver has exactly `m * n`
variables and `m + n` constraints. -/
theorem claim_C3_model_size (m n : ℕ) (supply : Fin m → ℚ) (demand : Fin n → ℚ)
    (costs : Fin m → Fin n → ℚ) (_hbal : ∑ i, supply i = ∑ j, demand j) :
    (buildModel m n supply demand costs).vars.length = m * n ∧
    (buildModel m n supply demand costs).constrs.length = m + n :=
  ⟨buildModel_vars_length supply demand costs, buildModel_constrs_length supply demand costs⟩

/-- Witness for C3 at the balanced instance `m = n = 1`,
`supply = demand = [100]`. -/
theorem claim_C3_model_size_witness :
    (∑ i : Fin 1, ((fun _ => (100 : ℚ)) i)) = (∑ j : Fin 1, ((fun _ => (100 : ℚ)) j)) ∧
    ((buildModel 1 1 (fun _ => 100) (fun _ => 100) fun _ _ => 5).vars.length = 1 * 1 ∧
      (buildModel 1 1 (fun _ => 100) (fun _ => 100) fun _ _ => 5).constrs.length = 1 + 1) :=
  ⟨rfl, claim_C3_model_size 1 1 (fun _ => 100) (fun _ => 100) (fun _ _ => 5) rfl⟩

/-- C4: in the degenerate case `m = n = 1` with nonnegative supply, after
balancing (`supply[1] = demand[1]`) the only feasible flow of the
constructed program is `x[1,1] = min(supply[1], demand[1])`, and its total
cost is `cost[1][1] * supply[1]`. -/
theorem claim_C4_degenerate (supply demand : Fin 1 → ℚ) (costs : Fin 1 → Fin 1 → ℚ)
    (hnn : 0 ≤ supply 0) (hbal : supply 0 = demand 0) :
    (∀ x, feasible (buildModel 1 1 supply demand costs) x ↔
      ∀ i j, x i j = min (supply 0) (demand 0)) ∧
    (∀ x, feasible (buildModel 1 1 supply demand costs) x →
      objectiveVal (buildModel 1 1 supply demand costs) x = costs 0 0 * supply 0) := by
  have hmin : min (supply 0) (demand 0) = supply 0 := by
    rw [← hbal]; exact min_self _
  have hiff : ∀ x, feasible (buildModel 1 1 supply demand costs) x ↔
      ∀ i j, x i j = min (supply 0) (demand 0) := by
    intro x
    rw [feasible_buildModel_iff, hmin]
    constructor
    · rintro ⟨hN, hrow, hcol⟩ i j
      have hi : i = 0 := Subsingleton.elim i 0
      have hj : j = 0 := Subsingleton.elim j 0
      subst hi; subst hj
      have hle : x 0 0 ≤ supply 0 := by
        have := hrow 0
        rwa [Fin.sum_univ_one] at this
      have hge : demand 0 ≤ x 0 0 := by
        have := hcol 0
        rwa [Fin.sum_univ_one] at this
      exact le_antisymm hle (hbal ▸ hge)
    · intro h
      refine ⟨fun i j => ?_, fun i => ?_, fun j => ?_⟩
      · rw [h i j]; exact hnn
      · rw [Fin.sum_univ_one, h i 0, Subsingleton.elim i 0]
      · rw [Fin.sum_univ_one, h 0 j, Subsingleton.elim j 0, ← hbal]
  refine ⟨hiff, fun x hx => ?_⟩
  rw [objectiveVal_buildModel, Fin.sum_univ_one, Fin.sum_univ_one,
    (hiff x).mp hx 0 0, hmin]

/-- Witness for C4 at `supply = demand = [100]`, `cost = [[7]]`. -/
theorem claim_C4_degenerate_witness :
    (0 : ℚ) ≤ 100 ∧
    ((∀ x, feasible (buildModel 1 1 (fun _ => (100 : ℚ)) (fun _ => 100) fun _ _ => 7) x ↔
        ∀ i j, x i j = min 100 100) ∧
      (∀ x, feasible (buildModel 1 1 (fun _ => (100 : ℚ)) (fun _ => 100) fun _ _ => 7) x →
        objectiveVal (buildModel 1 1 (fun _ => (100 : ℚ)) (fun _ => 100) fun _ _ => 7) x =
          7 * 100)) :=
  ⟨by norm_num,
    claim_C4_degenerate (fun _ => 100) (fun _ => 100) (fun _ _ => 7) (by norm_num) rfl⟩

/-- C7: feeding the result formatter an assignment, the cost matrix and
the objective value yields a grand total equal to the objective value
within `1e-6` (the grand-total cell displays `model.objVal` itself). -/
theorem claim_C7_grand_total (m n : ℕ) (x costs : Fin m → Fin n → ℚ) (objVal : ℚ) :
    |(formatResult m n x costs objVal).grandTotal - objVal| ≤ 1 / 1000000 := by
  simp [formatResult]

/-- C8: in every formatted result, unconditionally, the row total
("Offre" column) is the sum of that row's flows and the column total
("Demande" row) is the sum of that column's flows; moreover, whenever the
instance is balanced and the assignment is feasible for the built
program, they agree with the declared supplies and demands. -/
theorem claim_C8_formatted_totals (m n : ℕ) (supply : Fin m → ℚ) (demand : Fin n → ℚ)
    (costs x : Fin m → Fin n → ℚ) (objVal : ℚ) :
    (∀ i, (formatResult m n x costs objVal).rowFlow i =
      ∑ j, (formatResult m n x costs objVal).flow i j) ∧
    (∀ j, (formatResult m n x costs objVal).colFlow j =
      ∑ i, (formatResult m n x costs objVal).flow i j) ∧
    (feasible (buildModel m n supply demand costs) x →
      (∑ i, supply i = ∑ j, demand j) →
      (∀ i, (formatResult m n x costs objVal).rowFlow i = supply i) ∧
      (∀ j, (formatResult m n x costs objVal).colFlow j = demand j)) := by
  refine ⟨fun i => rfl, fun j => rfl, fun hfeas hbal => ?_⟩
  obtain ⟨h1, h2⟩ := balanced_feasible_tight supply demand costs x hfeas hbal
  exact ⟨fun i => h1 i, fun j => h2 j⟩

/-- Witness for C8 at the balanced instance `supply = demand = [100]`,
`cost = [[5]]` with the feasible flow `x = [[100]]`, discharging the
feasibility and balance hypotheses of the consistency part. -/
theorem claim_C8_formatted_totals_witness :
    feasible (buildModel 1 1 (fun _ => (100 : ℚ)) (fun _ => 100) fun _ _ => 5)
      (fun _ _ => 100) ∧
    (∑ i : Fin 1, ((fun _ => (100 : ℚ)) i)) = (∑ j : Fin 1, ((fun _ => (100 : ℚ)) j)) ∧
    ((∀ i, (formatResult 1 1 (fun _ _ => (100 : ℚ)) (fun _ _ => 5) 500).rowFlow i =
        ∑ j, (formatResult 1 1 (fun _ _ => (100 : ℚ)) (fun _ _ => 5) 500).flow i j) ∧
      (∀ j, (formatResult 1 1 (fun _ _ => (100 : ℚ)) (fun _ _ => 5) 500).colFlow j =
        ∑ i, (formatResult 1 1 (fun _ _ => (100 : ℚ)) (fun _ _ => 5) 500).flow i j) ∧
      (∀ i, (formatResult 1 1 (fun _ _ => (100 : ℚ)) (fun _ _ => 5) 500).rowFlow i =
        (fun _ => (100 : ℚ)) i) ∧
      (∀ j, (formatResult 1 1 (fun _ _ => (100 : ℚ)) (fun _ _ => 5) 500).colFlow j =
        (fun _ => (100 : ℚ)) j)) := by
  have hfeas : feasible (buildModel 1 1 (fun _ => (100 : ℚ)) (fun _ => 100) fun _ _ => 5)
      (fun _ _ => 100) :=
    (feasible_buildModel_iff _ _ _ _).mpr
      ⟨fun i j => by norm_num, fun i => by simp [Fin.sum_univ_one],
        fun j => by simp [Fin.sum_univ_one]⟩
  have h := claim_C8_formatted_totals 1 1 (fun _ => 100) (fun _ => 100) (fun _ _ => 5)
    (fun _ _ => 100) 500
  exact ⟨hfeas, rfl, h.1, h.2.1, (h.2.2 hfeas rfl).1, (h.2.2 hfeas rfl).2⟩

/-- C9: for every feasible balanced instance whose cost matrix is all
zeros, the objective value of any assignment of the built program is 0,
so the reported optimal objective is 0. -/
theorem claim_C9_zero_costs (m n : ℕ) (supply : Fin m → ℚ) (demand : Fin n → ℚ)
    (x : Fin m → Fin n → ℚ)
    (_hbal : ∑ i, supply i = ∑ j, demand j)
    (_hfeas : feasible (buildModel m n supply demand fun _ _ => 0) x) :
    objectiveVal (buildModel m n supply demand fun _ _ => 0) x = 0 := by
  rw [objectiveVal_buildModel]
  simp

/-- Witness for C9 at `supply = demand = [100]`, `x = [[100]]`. -/
theorem claim_C9_zero_costs_witness :
    (∑ i : Fin 1, ((fun _ => (100 : ℚ)) i)) = (∑ j : Fin 1, ((fun _ => (100 : ℚ)) j)) ∧
    feasible (buildModel 1 1 (fun _ => (100 : ℚ)) (fun _ => 100) fun _ _ => 0)
      (fun _ _ => 100) ∧
    objectiveVal (buildModel 1 1 (fun _ => (100 : ℚ)) (fun _ => 100) fun _ _ => 0)
      (fun _ _ => 100) = 0 := by
  have hfeas : feasible (buildModel 1 1 (fun _ => (100 : ℚ)) (fun _ => 100) fun _ _ => 0)
      (fun _ _ => 100) :=
    (feasible_buildModel_iff _ _ _ _).mpr
      ⟨fun i j => by norm_num, fun i => by simp [Fin.sum_univ_one],
        fun j => by simp [Fin.sum_univ_one]⟩
  exact ⟨rfl, hfeas,
    claim_C9_zero_costs 1 1 (fun _ => 100) (fun _ => 100) (fun _ _ => 100) rfl hfeas⟩

/-- C10: whenever supplies, demands and costs are nonnegative and total
supply covers total demand, the constructed program admits a feasible
assignment (so a correct solver can report infeasibility only when total
demand strictly exceeds total supply). -/
theorem claim_C10_feasible_of_covered (m n : ℕ) (supply : Fin m → ℚ) (demand : Fin n → ℚ)
    (costs : Fin m → Fin n → ℚ)
    (hs : ∀ i, 0 ≤ supply i) (hd : ∀ j, 0 ≤ demand j)
    (hcover : ∑ j, demand j ≤ ∑ i, supply i) :
    ∃ x, feasible (buildModel m n supply demand costs) x := by
  refine ⟨fun i j => supply i * demand j / ∑ i, supply i, ?_⟩
  rw [feasible_buildModel_iff]
  have hS0 : (0 : ℚ) ≤ ∑ i, supply i := Finset.sum_nonneg fun i _ => hs i
  by_cases hS : (∑ i, supply i) = 0
  · have hD0 : ∑ j, demand j = 0 :=
      le_antisymm (hS ▸ hcover) (Finset.sum_nonneg fun j _ => hd j)
    have hdz : ∀ j, demand j = 0 := fun j =>
      (Finset.sum_eq_zero_iff_of_nonneg fun j _ => hd j).mp hD0 j (Finset.mem_univ j)
    refine ⟨fun i j => ?_, fun i => ?_, fun j => ?_⟩
    · rw [hdz j]; simp
    · calc ∑ j, supply i * demand j / ∑ i, supply i
          = ∑ j : Fin n, (0 : ℚ) :=
            Finset.sum_congr rfl fun j _ => by rw [hdz j]; simp
        _ = 0 := Finset.sum_const_zero
        _ ≤ supply i := hs i
    · rw [hdz j]
      exact Finset.sum_nonneg fun i _ => div_nonneg (mul_nonneg (hs i) le_rfl) hS0
  · have hSpos : (0 : ℚ) < ∑ i, supply i := lt_of_le_of_ne hS0 (Ne.symm hS)
    refine ⟨fun i j => ?_, fun i => ?_, fun j => ?_⟩
    · exact div_nonneg (mul_nonneg (hs i) (hd j)) hS0
    · rw [show ∑ j, supply i * demand j / ∑ i, supply i
          = supply i * (∑ j, demand j) / ∑ i, supply i by
        rw [← Finset.sum_div, ← Finset.mul_sum]]
      rw [div_le_iff₀ hSpos]
      exact mul_le_mul_of_nonneg_left hcover (hs i)
    · rw [show ∑ i, supply i * demand j / ∑ i, supply i
          = (∑ i, supply i) * demand j / ∑ i, supply i by
        rw [← Finset.sum_div, ← Finset.sum_mul]]
      rw [mul_comm, mul_div_assoc, div_self hS, mul_one]

/-- Witness for C10 at the imbalanced instance `supply = [300]`,
`demand = [250]` (total supply covers total demand). -/
theorem claim_C10_feasible_of_covered_witness :
    (∀ i, (0 : ℚ) ≤ (fun _ : Fin 1 => (300 : ℚ)) i) ∧
    (∀ j, (0 : ℚ) ≤ (fun _ : Fin 1 => (250 : ℚ)) j) ∧
    (∑ j : Fin 1, ((fun _ => (250 : ℚ)) j)) ≤ (∑ i : Fin 1, ((fun _ => (300 : ℚ)) i)) ∧
    ∃ x, feasible (buildModel 1 1 (fun _ => (300 : ℚ)) (fun _ => 250) fun _ _ => 5) x :=
  ⟨fun i => by norm_num, fun j => by norm_num,
    by norm_num [Fin.sum_univ_one],
    claim_C10_feasible_of_covered 1 1 (fun _ => 300) (fun _ => 250) (fun _ _ => 5)
      (fun i => by norm_num) (fun j => by norm_num) (by norm_num [Fin.sum_univ_one])⟩

/-- C6: on an imbalanced input, declining the confirmation prompt aborts
the solve with no side effects: the display state is returned unchanged,
no model is built and the solver is never called, and no warning dialog
is shown. -/
theorem claim_C6_decline_aborts (m n : ℕ) (supply : Fin m → ℚ) (demand : Fin n → ℚ)
    (costs : Fin m → Fin n → ℚ) (solver : LPModel m n → GurobiResult m n)
    (st : DisplayState)
    (himb : epsilon < |(∑ i, supply i) - ∑ j, demand j|) :
    (solveTransport m n supply demand costs false solver st).state = st ∧
    (solveTransport m n supply demand costs false solver st).sentModel = none ∧
    (solveTransport m n supply demand costs false solver st).dialog = none := by
  have hb : decide (epsilon < |(∑ i, supply i) - ∑ j, demand j|) = true :=
    decide_eq_true himb
  have key : solveTransport m n supply demand costs false solver st =
      { state := st, promptShown := true, sentModel := none, dialog := none } := by
    unfold solveTransport
    simp only [hb, Bool.not_false, Bool.and_true, if_true]
  rw [key]
  exact ⟨rfl, rfl, rfl⟩

/-- Witness for C6 at the imbalanced instance `supply = [300]`,
`demand = [250]` with the user declining. -/
theorem claim_C6_decline_aborts_witness :
    epsilon < |(∑ i : Fin 1, ((fun _ => (300 : ℚ)) i)) - ∑ j : Fin 1, ((fun _ => (250 : ℚ)) j)| ∧
    ((solveTransport 1 1 (fun _ => 300) (fun _ => 250) (fun _ _ => 5) false
        (fun _ => ⟨2, fun _ _ => 250, 1250⟩) initialState).state = initialState ∧
      (solveTransport 1 1 (fun _ => 300) (fun _ => 250) (fun _ _ => 5) false
        (fun _ => ⟨2, fun _ _ => 250, 1250⟩) initialState).sentModel = none ∧
      (solveTransport 1 1 (fun _ => 300) (fun _ => 250) (fun _ _ => 5) false
        (fun _ => ⟨2, fun _ _ => 250, 1250⟩) initialState).dialog = none) :=
  ⟨by norm_num [epsilon, Fin.sum_univ_one],
    claim_C6_decline_aborts 1 1 (fun _ => 300) (fun _ => 250) (fun _ _ => 5)
      (fun _ => ⟨2, fun _ _ => 250, 1250⟩) initialState
      (by norm_num [epsilon, Fin.sum_univ_one])⟩

/-- C5: when the solve reaches the solver and the solver reports a
non-optimal status, the raw status code is reported in the warning
dialog, and the result-bearing state (results table, solution pane,
statistics, export flag) is left unchanged: no partial result is
rendered. -/
theorem claim_C5_failure_reported (m n : ℕ) (supply : Fin m → ℚ) (demand : Fin n → ℚ)
    (costs : Fin m → Fin n → ℚ) (solver : LPModel m n → GurobiResult m n)
    (st : DisplayState)
    (hstat : (solver (buildModel m n supply demand costs)).status ≠ GRB_OPTIMAL) :
    (solveTransport m n supply demand costs true solver st).state.results = st.results ∧
    (solveTransport m n supply demand costs true solver st).state.solutionPane =
      st.solutionPane ∧
    (solveTransport m n supply demand costs true solver st).state.stats = st.stats ∧
    (solveTransport m n supply demand costs true solver st).state.exportEnabled =
      st.exportEnabled ∧
    (solveTransport m n supply demand costs true solver st).dialog =
      some (nonOptimalMessage (solver (buildModel m n supply demand costs)).status) := by
  have key : solveTransport m n supply demand costs true solver st =
      { state := { st with statusText := "Aucune solution optimale trouvee" }
        promptShown := decide (epsilon < |(∑ i, supply i) - ∑ j, demand j|)
        sentModel := some ⟨m, n, buildModel m n supply demand costs⟩
        dialog := some (nonOptimalMessage
          (solver (buildModel m n supply demand costs)).status) } := by
    unfold solveTransport
    simp only [Bool.not_true, Bool.and_false, Bool.false_eq_true, if_false, if_neg hstat]
  rw [key]
  exact ⟨rfl, rfl, rfl, rfl, rfl⟩

/-- Witness for C5 at `supply = demand = [100]` with a solver reporting
status 3 (infeasible). -/
theorem claim_C5_failure_reported_witness :
    ((fun _ => (⟨3, fun _ _ => 0, 0⟩ : GurobiResult 1 1))
        (buildModel 1 1 (fun _ => (100 : ℚ)) (fun _ => 100) fun _ _ => 5)).status ≠
      GRB_OPTIMAL ∧
    ((solveTransport 1 1 (fun _ => (100 : ℚ)) (fun _ => 100) (fun _ _ => 5) true
        (fun _ => ⟨3, fun _ _ => 0, 0⟩) initialState).state.results =
      initialState.results ∧
      (solveTransport 1 1 (fun _ => (100 : ℚ)) (fun _ => 100) (fun _ _ => 5) true
        (fun _ => ⟨3, fun _ _ => 0, 0⟩) initialState).state.solutionPane =
      initialState.solutionPane ∧
      (solveTransport 1 1 (fun _ => (100 : ℚ)) (fun _ => 100) (fun _ _ => 5) true
        (fun _ => ⟨3, fun _ _ => 0, 0⟩) initialState).state.stats =
      initialState.stats ∧
      (solveTransport 1 1 (fun _ => (100 : ℚ)) (fun _ => 100) (fun _ _ => 5) true
        (fun _ => ⟨3, fun _ _ => 0, 0⟩) initialState).state.exportEnabled =
      initialState.exportEnabled ∧
      (solveTransport 1 1 (fun _ => (100 : ℚ)) (fun _ => 100) (fun _ _ => 5) true
        (fun _ => ⟨3, fun _ _ => 0, 0⟩) initialState).dialog =
      some (nonOptimalMessage
        ((fun _ => (⟨3, fun _ _ => 0, 0⟩ : GurobiResult 1 1))
          (buildModel 1 1 (fun _ => (100 : ℚ)) (fun _ => 100) fun _ _ => 5)).status)) :=
  ⟨by decide,
    claim_C5_failure_reported 1 1 (fun _ => 100) (fun _ => 100) (fun _ _ => 5)
      (fun _ => ⟨3, fun _ _ => 0, 0⟩) initialState (by decide)⟩

/-- C1 fails on the code: for the imbalanced instance `supply = [300]`,
`demand = [250]` the prompt is shown, but after the user confirms, the
model handed to the solver is built from the original data: it has a
single variable (no dummy row or column was added) and its capacity and
coverage right-hand sides still total 300 and 250, so no zero-cost dummy
of capacity 50 was added and the balance invariant
`sum(supply) = sum(demand)` does not hold for the solved instance.  The
prompt text of the source even announces "Un point fictif sera ajouté";
the code adds none. -/
theorem claim_C1_no_dummy_added :
    (solveTransport 1 1 (fun _ => 300) (fun _ => 250) (fun _ _ => 5) true
        (fun _ => ⟨2, fun _ _ => 250, 1250⟩) initialState).promptShown = true ∧
    ((solveTransport 1 1 (fun _ => 300) (fun _ => 250) (fun _ _ => 5) true
        (fun _ => ⟨2, fun _ _ => 250, 1250⟩) initialState).sentModel.map fun p =>
      (p.2.2.vars.length, leRhsTotal p.2.2, geRhsTotal p.2.2)) = some (1, 300, 250) ∧
    leRhsTotal (buildModel 1 1 (fun _ => (300 : ℚ)) (fun _ => 250) fun _ _ => 5) ≠
      geRhsTotal (buildModel 1 1 (fun _ => (300 : ℚ)) (fun _ => 250) fun _ _ => 5) := by
  have hle : leRhsTotal (buildModel 1 1 (fun _ => (300 : ℚ)) (fun _ => 250) fun _ _ => 5) =
      300 := by
    simp [leRhsTotal, buildModel, supplyConstr, demandConstr, List.finRange_succ]
  have hge : geRhsTotal (buildModel 1 1 (fun _ => (300 : ℚ)) (fun _ => 250) fun _ _ => 5) =
      250 := by
    simp [geRhsTotal, buildModel, supplyConstr, demandConstr, List.finRange_succ]
  have key : solveTransport 1 1 (fun _ => 300) (fun _ => 250) (fun _ _ => 5) true
      (fun _ => ⟨2, fun _ _ => 250, 1250⟩) initialState =
      { state :=
          { solutionPane := some ⟨1250, 1 * 1, 1 + 1⟩
            results := some ⟨1, 1, formatResult 1 1 (fun _ _ => 250) (fun _ _ => 5) 1250⟩
            stats := some ⟨1, 1, 1 * 1, 1250⟩
            exportEnabled := true
            statusText := "Solution optimale trouvee" }
        promptShown := decide (epsilon <
          |(∑ i : Fin 1, ((fun _ => (300 : ℚ)) i)) - ∑ j : Fin 1, ((fun _ => (250 : ℚ)) j)|)
        sentModel := some ⟨1, 1, buildModel 1 1 (fun _ => 300) (fun _ => 250) fun _ _ => 5⟩
        dialog := none } := by
    unfold solveTransport
    simp only [Bool.not_true, Bool.and_false, Bool.false_eq_true, if_false, GRB_OPTIMAL,
      if_pos]
  refine ⟨?_, ?_, ?_⟩
  · rw [key]
    show decide _ = true
    rw [decide_eq_true_eq]
    norm_num [epsilon, Fin.sum_univ_one]
  · rw [key]
    show some _ = some _
    rw [Option.some_inj]
    refine Prod.ext ?_ (Prod.ext ?_ ?_)
    · exact buildModel_vars_length _ _ _
    · exact hle
    · exact hge
  · rw [hle, hge]
    norm_num

end Claims

end Logistics
